import Mathlib

/-!
Verification model of the WizardPro orchestrator core.

This file gives a shallow embedding, in Lean, of the parts of the repository
that carry the real invariants:

* `orchestrator/core/utils.py` — the JSON serialization of a project context
  (`EnhancedJSONEncoder.default` and `json_object_hook`), modelled as total
  functions between a Python-value model (`PyVal`) and a JSON-value model
  (`JVal`).  File input/output, logging and the `try/except` wrappers that only
  log and return `False`/`None` are elided; the serialized form of a
  `ProjectContext` is its `dataclasses.asdict` image, a `PyVal` dictionary.
* `orchestrator/core/llm_tools.py` — `LLMTool.execute`, the retry loop around
  one collaborator attempt (`_execute_api_call`).  The collaborator is a
  function from the attempt number to the attempt's outcome.  Sleeping and the
  computed backoff wait times have no effect on the returned response and are
  elided; the `Retry-After` header is carried but, feeding only the elided wait
  time, unused.
* `orchestrator/core/data_types.py` — `ProjectContext` and its append/update
  methods.  The free-form artifact fields are aggregated into one `PyVal`.
* `orchestrator/main.py` — `Orchestrator.run_workflow`: the resume-index
  computation (lines 155-184) and the main phase loop (lines 190-248).  A phase
  is modelled by the list of context operations its `run` performs plus an
  optional raised exception; the operation list `CtxOp` enumerates exactly the
  context mutations found in `phases/__init__.py` and `phases/phase_1.py` ..
  `phase_5.py` (append a call record, append a log entry, update status,
  assign artifact fields, assign `latest_user_response`).
-/

namespace WizardPro

/-! ## Python date, datetime and UUID values (utils.py serialization helpers) -/

/-- A `datetime.date` value. -/
structure DateVal where
  year : Nat
  month : Nat
  day : Nat
deriving Repr, DecidableEq

/-- A `datetime.datetime` value.  The timezone is represented by its UTC offset
in minutes (`none` for a naive datetime); `isoformat` round-trips the offset. -/
structure DateTimeVal where
  date : DateVal
  hour : Nat
  minute : Nat
  second : Nat
  microsecond : Nat
  utcOffsetMinutes : Option Int
deriving Repr, DecidableEq

/-- An ISO-8601 string as produced by `date.isoformat()` (no time part) or
`datetime.isoformat()` (always a time part).  The string is kept in structured
form; `IsoString.render` recovers the character string. -/
inductive IsoString where
  | dateOnly (d : DateVal)
  | withTime (dt : DateTimeVal)
deriving Repr, DecidableEq

/-- Left-pad the decimal form of `n` with zeros to `width` characters. -/
def padNat (width : Nat) (n : Nat) : String :=
  let s := toString n
  String.mk (List.replicate (width - s.length) '0') ++ s

/-- Render a `datetime.date` as `YYYY-MM-DD`. -/
def DateVal.render (d : DateVal) : String :=
  padNat 4 d.year ++ "-" ++ padNat 2 d.month ++ "-" ++ padNat 2 d.day

/-- Render a UTC offset as `+HH:MM` / `-HH:MM` (empty for a naive datetime). -/
def renderOffset : Option Int → String
  | Option.none => ""
  | Option.some off =>
      let sign := if off < 0 then "-" else "+"
      let a := off.natAbs
      sign ++ padNat 2 (a / 60) ++ ":" ++ padNat 2 (a % 60)

/-- Render a `datetime.datetime` as `datetime.isoformat()` does: the time part
is always present and the microsecond part is omitted when zero. -/
def DateTimeVal.render (dt : DateTimeVal) : String :=
  dt.date.render ++ "T" ++ padNat 2 dt.hour ++ ":" ++ padNat 2 dt.minute ++ ":"
    ++ padNat 2 dt.second
    ++ (if dt.microsecond = 0 then "" else "." ++ padNat 6 dt.microsecond)
    ++ renderOffset dt.utcOffsetMinutes

/-- Recover the character string of an ISO string. -/
def IsoString.render : IsoString → String
  | .dateOnly d => d.render
  | .withTime dt => dt.render

/-- Model of `datetime.datetime.fromisoformat` (utils.py line 41) on the
strings `isoformat` produces: a date-only string yields the naive datetime at
midnight of that day; a string with a time part yields that datetime. -/
def fromisoformat : IsoString → DateTimeVal
  | .dateOnly d =>
      { date := d, hour := 0, minute := 0, second := 0, microsecond := 0
        utcOffsetMinutes := Option.none }
  | .withTime dt => dt

/-- Lowercase hexadecimal digit test. -/
def isLowerHexDigit (c : Char) : Bool :=
  ("0123456789abcdef".data).contains c

/-- Canonical form test for a UUID string: 36 characters, hyphens at positions
8, 13, 18 and 23, lowercase hex digits elsewhere.  `str(uuid.UUID(...))` always
produces this form, and `uuid.UUID(s)` succeeds on it with `str` a left
inverse, which is all the round-trip development relies on (utils.py lines
45-50 also accept some non-canonical spellings; those never arise from the
encoder and are outside this model's domain). -/
def isCanonicalUuid (s : String) : Bool :=
  s.data.length == 36 &&
  (List.range 36).all (fun i =>
    match s.data[i]? with
    | Option.some c =>
        if i == 8 || i == 13 || i == 18 || i == 23 then c == '-'
        else isLowerHexDigit c
    | Option.none => false)

/-! ## Python values and JSON values

`PyVal` models the Python values that may populate the free-form fields of a
`ProjectContext`: strings, ints, bools, `None`, `datetime.datetime`,
`datetime.date`, `uuid.UUID`, lists, and string-keyed dicts.  Floats and
non-string dict keys are outside the model.  `JVal` models JSON values, with
ISO strings kept distinguishable from other strings so that the decoder's
`fromisoformat` attempt can be expressed without a character-level parser: a
`JVal.iso` is a string that parses as ISO-8601, a `JVal.str` is one that does
not. -/

mutual
inductive PyVal where
  | str (s : String)
  | int (n : Int)
  | bool (b : Bool)
  | none
  | datetime (dt : DateTimeVal)
  | date (d : DateVal)
  | uuid (u : String)
  | list (xs : PyList)
  | dict (es : PyDict)
deriving Repr

inductive PyList where
  | nil
  | cons (head : PyVal) (tail : PyList)
deriving Repr

inductive PyDict where
  | nil
  | cons (key : String) (value : PyVal) (rest : PyDict)
deriving Repr
end

/-- Key membership in a Python dict model. -/
def PyDict.hasKey : PyDict → String → Bool
  | .nil, _ => false
  | .cons k _ r, key => k == key || PyDict.hasKey r key

mutual
inductive JVal where
  | str (s : String)
  | iso (s : IsoString)
  | int (n : Int)
  | bool (b : Bool)
  | null
  | arr (xs : JList)
  | obj (es : JDict)
deriving Repr

inductive JList where
  | nil
  | cons (head : JVal) (tail : JList)
deriving Repr

inductive JDict where
  | nil
  | cons (key : String) (value : JVal) (rest : JDict)
deriving Repr
end

/-- Key membership in a JSON object, modelling `"k" in dct`. -/
def JDict.hasKey : JDict → String → Bool
  | .nil, _ => false
  | .cons k _ r, key => k == key || JDict.hasKey r key

/-- Lookup in a JSON object, modelling `dct["k"]`. -/
def JDict.lookupVal : JDict → String → Option JVal
  | .nil, _ => Option.none
  | .cons k v r, key => if k == key then Option.some v else JDict.lookupVal r key

/-! ## EnhancedJSONEncoder (utils.py lines 17-34)

`encodeVal` models `json.dump(..., cls=EnhancedJSONEncoder)`: native JSON
types pass through, a `datetime.date` or `datetime.datetime` becomes
`{"__datetime__": True, "value": o.isoformat()}` and a `uuid.UUID` becomes
`{"__uuid__": True, "value": str(o)}`.  The dataclass and str fallback
branches of `default` are not reachable from the modelled value domain. -/

mutual
def encodeVal : PyVal → JVal
  | .str s => .str s
  | .int n => .int n
  | .bool b => .bool b
  | .none => .null
  | .datetime dt =>
      .obj (.cons "__datetime__" (.bool true)
        (.cons "value" (.iso (.withTime dt)) .nil))
  | .date d =>
      .obj (.cons "__datetime__" (.bool true)
        (.cons "value" (.iso (.dateOnly d)) .nil))
  | .uuid u =>
      .obj (.cons "__uuid__" (.bool true) (.cons "value" (.str u) .nil))
  | .list xs => .arr (encodeList xs)
  | .dict es => .obj (encodeDict es)

def encodeList : PyList → JList
  | .nil => .nil
  | .cons x xs => .cons (encodeVal x) (encodeList xs)

def encodeDict : PyDict → JDict
  | .nil => .nil
  | .cons k v r => .cons k (encodeVal v) (encodeDict r)
end

/-! ## json_object_hook (utils.py lines 37-52)

`decodeVal` models `json.load(..., object_hook=json_object_hook)`: values are
decoded bottom-up and every object is passed through the hook.  The hook first
checks for the key `"__datetime__"`: if present it parses the `"value"` entry
with `fromisoformat`, returning the original dict when parsing raises
`ValueError` (a `"value"` that is not an ISO string).  Only then does it check
`"__uuid__"` the same way.  A tagged object with no `"value"` key at all
would raise `KeyError` in the source; the model returns the dict, a branch no
theorem relies on. -/

mutual
def decodeVal : JVal → PyVal
  | .str s => .str s
  | .iso s => .str s.render
  | .int n => .int n
  | .bool b => .bool b
  | .null => .none
  | .arr xs => .list (decodeList xs)
  | .obj es =>
      if JDict.hasKey es "__datetime__" then
        match JDict.lookupVal es "value" with
        | Option.some (.iso s) => .datetime (fromisoformat s)
        | _ => .dict (decodeDict es)
      else if JDict.hasKey es "__uuid__" then
        match JDict.lookupVal es "value" with
        | Option.some (.str u) =>
            if isCanonicalUuid u then .uuid u else .dict (decodeDict es)
        | _ => .dict (decodeDict es)
      else .dict (decodeDict es)

def decodeList : JList → PyList
  | .nil => .nil
  | .cons x xs => .cons (decodeVal x) (decodeList xs)

def decodeDict : JDict → PyDict
  | .nil => .nil
  | .cons k v r => .cons k (decodeVal v) (decodeDict r)
end

/-! ## Well-formedness of serializable values

`wfVal` carves out the Python values whose model is meaningful: UUID strings
are canonical (as `str(uuid.UUID(...))` guarantees) and no dict uses the
encoder's reserved tag keys `"__datetime__"` / `"__uuid__"`.  `dateFreeVal`
additionally excludes bare `datetime.date` values. -/

mutual
def wfVal : PyVal → Bool
  | .str _ => true
  | .int _ => true
  | .bool _ => true
  | .none => true
  | .datetime _ => true
  | .date _ => true
  | .uuid u => isCanonicalUuid u
  | .list xs => wfList xs
  | .dict es =>
      !PyDict.hasKey es "__datetime__" && !PyDict.hasKey es "__uuid__" && wfDict es

def wfList : PyList → Bool
  | .nil => true
  | .cons x xs => wfVal x && wfList xs

def wfDict : PyDict → Bool
  | .nil => true
  | .cons _ v r => wfVal v && wfDict r
end

mutual
def dateFreeVal : PyVal → Bool
  | .date _ => false
  | .list xs => dateFreeList xs
  | .dict es => dateFreeDict es
  | _ => true

def dateFreeList : PyList → Bool
  | .nil => true
  | .cons x xs => dateFreeVal x && dateFreeList xs

def dateFreeDict : PyDict → Bool
  | .nil => true
  | .cons _ v r => dateFreeVal v && dateFreeDict r
end

/-- Serialization core of `save_project_context` (utils.py lines 56-117): the
context dict (the `asdict`/`to_dict` image of a `ProjectContext`) is dumped
with `EnhancedJSONEncoder`.  Path handling, file writing and the error-logging
wrappers are elided. -/
def save_project_context (contextDict : PyVal) : JVal :=
  encodeVal contextDict

/-- Serialization core of `load_project_context` (utils.py lines 120-152): the
file content is loaded with `json_object_hook`; the `ProjectContext.from_dict`
reconstruction (`cls(**data)`) is the identity on the field dictionary. -/
def load_project_context (saved : JVal) : PyVal :=
  decodeVal saved

/-! ## Call envelope (data_types.py lines 26-42)

Only the fields the executor's control flow reads or writes are modelled:
`text` and `error`.  `model_identifier`, `input_prompt`, `raw_response`,
`cost`, `latency_ms` and `finish_reason` are metadata that never influence a
branch. -/

/-- A collaborator response (`LLMOutput`): output text plus optional error. -/
structure LLMOutput where
  text : String
  error : Option String
deriving Repr, DecidableEq

namespace LLMTool

/-- Retry configuration (llm_tools.py line 15). -/
def MAX_RETRIES : Nat := 3

/-- The HTTP response attached to a raised `requests.exceptions.HTTPError`:
status code, body text, and the optional `Retry-After` header.  The header
feeds only the elided wait time (llm_tools.py lines 76-79). -/
structure HttpResp where
  status : Nat
  text : String
  retryAfter : Option String
deriving Repr, DecidableEq

/-- Outcome of one collaborator attempt, i.e. of one `_execute_api_call`
(llm_tools.py lines 46-132): a returned `LLMOutput` without error, a returned
`LLMOutput` with a logical error, or one of the exception classes the retry
loop distinguishes.  Exception cases carry the Python type name and `str` of
the exception where the loop uses them. -/
inductive AttemptResult where
  | success (text : String)
  | logicalError (text : String) (err : String)
  | httpError (msg : String) (resp : Option HttpResp)
  | timeout
  | connError (typeName : String) (msg : String)
  | notImplemented
  | otherError (typeName : String) (msg : String)
deriving Repr, DecidableEq

/-- The `last_error` record: Python type name and `str` of the stored
exception, as used by the final error message (llm_tools.py line 141). -/
structure LastErr where
  typeName : String
  msg : String
deriving Repr, DecidableEq

/-- Status code extraction (llm_tools.py line 68): default 500 when the
exception carries no response object. -/
def statusOf (resp : Option HttpResp) : Nat :=
  match resp with
  | Option.some r => r.status
  | Option.none => 500

/-- Python string slice `s[:n]`: the first `n` characters. -/
def pyTake (s : String) (n : Nat) : String :=
  String.mk (s.data.take n)

/-- Truncated response body for the non-retryable error message (llm_tools.py
lines 94-97). -/
def respSnippet (resp : Option HttpResp) : String :=
  match resp with
  | Option.some r => pyTake r.text 200
  | Option.none => "[No response body]"

/-- Server-error test `500 <= status_code < 600` (llm_tools.py line 85). -/
def is5xx (st : Nat) : Bool :=
  Nat.ble 500 st && Nat.blt st 600

/-- One iteration of the retry loop either breaks out or continues, carrying
the current output and `last_error`. -/
inductive LoopStep where
  | brk (out : LLMOutput) (lastError : Option LastErr)
  | cont (out : LLMOutput) (lastError : Option LastErr)
deriving Repr, DecidableEq

/-- Body of the retry loop (llm_tools.py lines 46-132) at one attempt.  The
backoff waits (`time.sleep`) between continues are elided: they do not affect
the returned response. -/
def attemptStep (className : String) (r : AttemptResult) (isLast : Bool)
    (out : LLMOutput) (lastError : Option LastErr) : LoopStep :=
  match r with
  | .success t => .brk { text := t, error := Option.none } Option.none
  | .logicalError t e => .brk { text := t, error := Option.some e } lastError
  | .httpError msg resp =>
      let st := statusOf resp
      let le := Option.some { typeName := "HTTPError", msg := msg }
      if st == 429 then
        if isLast then .brk out le else .cont out le
      else if is5xx st then
        if isLast then .brk out le else .cont out le
      else
        .brk { out with error := Option.some ("API Request Failed (HTTP "
          ++ toString st ++ "): " ++ msg ++ " | Resp: " ++ respSnippet resp) } le
  | .timeout =>
      let le := Option.some { typeName := "Timeout", msg := "Request timed out" }
      if isLast then .brk out le else .cont out le
  | .connError ty msg =>
      let le := Option.some { typeName := ty, msg := msg }
      if isLast then .brk out le else .cont out le
  | .notImplemented =>
      let em := "_execute_api_call not implemented for " ++ className
      .brk { out with error := Option.some em }
        (Option.some { typeName := "NotImplementedError", msg := em })
  | .otherError ty msg =>
      .brk { out with error := Option.some ("Unexpected error during LLM execution: " ++ msg) }
        (Option.some { typeName := ty, msg := msg })

/-- State after the retry loop exits: the output, the stored `last_error`, the
final value of the Python loop variable `attempt`, and the number of attempts
performed. -/
structure LoopResult where
  out : LLMOutput
  lastError : Option LastErr
  lastAttempt : Nat
  attempts : Nat
deriving Repr, DecidableEq

/-- The retry loop `for attempt in range(MAX_RETRIES + 1)` (llm_tools.py line
42), driven by the remaining iteration count.  When the range is exhausted
without a break the loop variable keeps its last value `a - 1`; every branch of
the body breaks on the last attempt, so with fuel `MAX_RETRIES + 1` this case
is unreachable. -/
def execLoop (className : String) (call : Nat → AttemptResult) :
    Nat → Nat → LLMOutput → Option LastErr → Nat → LoopResult
  | 0, a, out, le, made =>
      { out := out, lastError := le, lastAttempt := a - 1, attempts := made }
  | fuel + 1, a, out, le, made =>
      match attemptStep className (call a) (a == MAX_RETRIES) out le with
      | .brk o l =>
          { out := o, lastError := l, lastAttempt := a, attempts := made + 1 }
      | .cont o l => execLoop className call fuel (a + 1) o l (made + 1)

/-- The value `LLMTool.execute` returns, extended with the number of attempts
performed (for the bounded-retry properties).  Latency is elided. -/
structure ExecResult where
  text : String
  error : Option String
  attempts : Nat
deriving Repr, DecidableEq

/-- Model of `LLMTool.execute` (llm_tools.py lines 26-152): missing-API-key
early return, the retry loop, and the after-loop synthesis of the final error
message when `attempt == MAX_RETRIES and output.error is None` (line 139). -/
def execute (className model apiKey : String) (call : Nat → AttemptResult) :
    ExecResult :=
  if apiKey = "" then
    { text := "", error := Option.some "API key missing", attempts := 0 }
  else
    let r := execLoop className call (MAX_RETRIES + 1) 0
      { text := "", error := Option.none } Option.none 0
    let finalError : Option String :=
      if r.lastAttempt = MAX_RETRIES ∧ r.out.error = Option.none then
        match r.lastError with
        | Option.some le =>
            Option.some ("LLM call failed after " ++ toString (MAX_RETRIES + 1)
              ++ " attempts for " ++ model ++ " (Last Error: " ++ le.typeName
              ++ ": " ++ le.msg ++ ").")
        | Option.none =>
            Option.some ("LLM call failed after exhausting retries for "
              ++ model ++ " (Unknown final error).")
      else r.out.error
    { text := r.out.text, error := finalError, attempts := r.attempts }

/-- Attempt outcomes the loop classifies as retryable: rate limit (429), 5xx
server error, timeout, connection error. -/
def retryable : AttemptResult → Bool
  | .httpError _ resp => statusOf resp == 429 || is5xx (statusOf resp)
  | .timeout => true
  | .connError _ _ => true
  | _ => false

end LLMTool

/-! ## ProjectContext (data_types.py lines 45-93)

The fields the engine's control flow reads or writes are modelled directly;
the free-form artifact fields (`refined_requirements`,
`architecture_document`, `technology_stack`, `generated_code`,
`code_analysis`, `unit_tests`, `test_results`, `debugging_info`,
`deployment_config`, `documentation`, `knowledge_graph`, `selected_wrappers`,
`user_feedback`) are aggregated into one `PyVal` since no engine branch
inspects them. -/

/-- An `error_log` entry as built by `add_log_entry` (data_types.py lines
73-84). -/
structure LogEntry where
  timestamp : String
  phase : String
  level : String
  message : String
  details : Option String
deriving Repr, DecidableEq

/-- Python `str.upper()` for the ASCII log levels used here. -/
def pyUpper (s : String) : String :=
  String.mk (s.data.map Char.toUpper)

/-- The persisted run state. -/
structure ProjectContext where
  project_id : String
  initial_request : Option String
  current_phase : String
  status : String
  error_log : List LogEntry
  llm_call_history : List LLMOutput
  latest_user_response : Option String
  artifacts : PyVal

/-- Model of `ProjectContext.add_log_entry` (data_types.py lines 73-84): an
entry is appended, never inserted or overwritten.  The `datetime.now()`
timestamp is passed in as `ts`. -/
def ProjectContext.add_log_entry (c : ProjectContext) (ts phase level message : String)
    (details : Option String) : ProjectContext :=
  { c with error_log := c.error_log ++
      [{ timestamp := ts, phase := phase, level := pyUpper level
         message := message, details := details }] }

/-- Model of `ProjectContext.update_status` (data_types.py lines 86-89). -/
def ProjectContext.update_status (c : ProjectContext) (newStatus : String)
    (currentPhase : Option String) : ProjectContext :=
  { c with status := newStatus
           current_phase := match currentPhase with
             | Option.some p => p
             | Option.none => c.current_phase }

/-- Model of `ProjectContext.add_llm_call` (data_types.py lines 91-93): the
call record is appended to the history. -/
def ProjectContext.add_llm_call (c : ProjectContext) (o : LLMOutput) : ProjectContext :=
  { c with llm_call_history := c.llm_call_history ++ [o] }

/-! ## Phase behaviour

A phase's `run` mutates the context it is given and may raise.  The mutations
performed by the phase implementations (`phases/__init__.py` helpers
`_call_llm`, `_update_context_and_proceed`, `_handle_error_and_halt`, and the
direct assignments in `phases/phase_1.py` .. `phase_5.py`) are exactly:
appending a call record, appending an error-log entry, updating
status/current_phase, assigning artifact fields, and assigning
`latest_user_response`.  `CtxOp` enumerates them. -/

/-- One context mutation performed by a phase. -/
inductive CtxOp where
  | addLlmCall (o : LLMOutput)
  | addLogEntry (ts phase level message : String) (details : Option String)
  | updateStatus (newStatus : String) (currentPhase : Option String)
  | setArtifacts (v : PyVal)
  | setLatestUserResponse (r : Option String)

/-- Apply one context mutation. -/
def applyOp (op : CtxOp) (c : ProjectContext) : ProjectContext :=
  match op with
  | .addLlmCall o => c.add_llm_call o
  | .addLogEntry ts phase level message details =>
      c.add_log_entry ts phase level message details
  | .updateStatus st ph => c.update_status st ph
  | .setArtifacts v => { c with artifacts := v }
  | .setLatestUserResponse r => { c with latest_user_response := r }

/-- Apply a phase's mutations in order. -/
def runOps : List CtxOp → ProjectContext → ProjectContext
  | [], c => c
  | op :: ops, c => runOps ops (applyOp op c)

/-- A phase as the engine sees it: its `phase_name_key` and its `run`, given as
the mutations it performs on the context it received plus an optional raised
exception (Python mutates the context in place, so the mutations applied
before the raise survive it). -/
structure PhaseSpec where
  key : String
  run : ProjectContext → List CtxOp × Option String

/-! ## Workflow engine (main.py lines 116-261) -/

/-- Outcome of the engine loop: the returned context, the successive snapshots
passed to `_save_context` in order, and the indices of the phases invoked in
order. -/
structure EngineResult where
  ctx : ProjectContext
  saves : List ProjectContext
  invoked : List Nat

/-- The main workflow loop (main.py lines 190-248), driven by the remaining
iteration count.  Each iteration runs the phase at the current index, saves the
returned context, and branches on its status: `Error` and `NeedsUserInput`
halt; `PhaseComplete` advances (finishing the last phase sets overall status
`Complete` and saves once more); any other status is converted to `Error`,
saved, and halts; an exception from `run` is caught, logged into the error log
with the phase name, converted to `Error`, saved, and halts.  `ts` is the
timestamp used for that log entry. -/
def engineLoopFuel (phases : List PhaseSpec) (ts : String) :
    Nat → Nat → ProjectContext → EngineResult
  | 0, _, c => { ctx := c, saves := [], invoked := [] }
  | fuel + 1, i, c =>
      match phases[i]? with
      | Option.none => { ctx := c, saves := [], invoked := [] }
      | Option.some ph =>
          let pr := ph.run c
          let c1 := runOps pr.1 c
          match pr.2 with
          | Option.some e =>
              let c2 := (c1.add_log_entry ts ph.key "CRITICAL"
                "Orchestrator exception" (Option.some e)).update_status
                "Error" (Option.some ph.key)
              { ctx := c2, saves := [c2], invoked := [i] }
          | Option.none =>
              if c1.status = "Error" then
                { ctx := c1, saves := [c1], invoked := [i] }
              else if c1.status = "NeedsUserInput" then
                { ctx := c1, saves := [c1], invoked := [i] }
              else if c1.status = "PhaseComplete" then
                if i + 1 = phases.length then
                  let c2 := c1.update_status "Complete" Option.none
                  { ctx := c2, saves := [c1, c2], invoked := [i] }
                else
                  let r := engineLoopFuel phases ts fuel (i + 1) c1
                  { ctx := r.ctx, saves := c1 :: r.saves, invoked := i :: r.invoked }
              else
                let c2 := c1.update_status "Error" (Option.some ph.key)
                { ctx := c2, saves := [c1, c2], invoked := [i] }

/-- The main workflow loop started at phase index `i`: the `while` loop runs at
most `phases.length - i` iterations because only `PhaseComplete` continues it,
incrementing the index. -/
def engineLoop (phases : List PhaseSpec) (ts : String) (i : Nat)
    (c : ProjectContext) : EngineResult :=
  engineLoopFuel phases ts (phases.length - i) i c

/-- Resume decision of `run_workflow` (main.py lines 155-175): either refuse
(the early `return context` for an `Error` status) or start the loop at an
index. -/
inductive StartDecision where
  | refuse
  | startAt (i : Nat)
deriving Repr, DecidableEq

/-- Resume-index computation (main.py lines 155-175).  `phase_keys.index`
raises `ValueError` when `current_phase` is absent, modelled by
`List.findIdx?` returning `none`: that exception is caught and the index reset
to 0 before the status is ever examined, so the checks for `PhaseComplete` and
`Error` are reached only when the phase was found. -/
def startDecision (phaseKeys : List String) (c : ProjectContext) : StartDecision :=
  match phaseKeys.findIdx? (fun k => k == c.current_phase) with
  | Option.some i =>
      if c.status = "PhaseComplete" then .startAt (i + 1)
      else if c.status = "Error" then .refuse
      else .startAt i
  | Option.none => .startAt 0

/-- Model of the resume path of `Orchestrator.run_workflow` (main.py lines
155-261) from a loaded context: compute the resume decision; on refusal return
the context unchanged with no phase run and no save; when the resume index is
past the last phase, return without running anything, upgrading a non-`Error`
status to `Complete` (lines 177-184, which save nothing); otherwise run the
main loop from that index. -/
def runWorkflowResume (phases : List PhaseSpec) (ts : String)
    (loaded : ProjectContext) : EngineResult :=
  match startDecision (phases.map PhaseSpec.key) loaded with
  | .refuse => { ctx := loaded, saves := [], invoked := [] }
  | .startAt i =>
      if i < phases.length then engineLoop phases ts i loaded
      else
        let c :=
          if loaded.status = "Error" then loaded
          else loaded.update_status "Complete" Option.none
        { ctx := c, saves := [], invoked := [] }

/-! ## Helper lemmas -/

/-- A membership witness yields a hit for the engine's phase lookup. -/
theorem findIdx_isSome_of_mem (a : String) (l : List String) (h : a ∈ l) :
    (l.findIdx? (fun k => k == a)).isSome = true := by
  induction l with
  | nil => cases h
  | cons x xs ih =>
      rw [List.findIdx?_cons]
      by_cases hx : x == a
      · simp [hx]
      · have hmem : a ∈ xs := by
          cases h with
          | head => simp at hx
          | tail _ h2 => exact h2
        simp only [hx, List.findIdx?_succ, if_neg]
        rcases Option.isSome_iff_exists.mp (ih hmem) with ⟨i, hi⟩
        rw [hi]
        rfl

/-! ## Claims about the resume-index computation -/

/-- C3: for a resumed run whose persisted `current_phase` is found in the phase
sequence at index `i`, a loaded status `PhaseComplete` makes the engine begin
at index `i + 1`, and a loaded status `NeedsUserInput` makes it re-invoke the
same index `i` (main.py lines 155-175). -/
theorem resume_index_determinism (keys : List String) (c : ProjectContext) (i : Nat)
    (hfind : keys.findIdx? (fun k => k == c.current_phase) = Option.some i) :
    (c.status = "PhaseComplete" → startDecision keys c = .startAt (i + 1)) ∧
    (c.status = "NeedsUserInput" → startDecision keys c = .startAt i) := by
  unfold startDecision
  rw [hfind]
  constructor
  · intro h
    rw [h]
    simp
  · intro h
    rw [h]
    simp

/-- Context loaded mid-sequence with a completed phase. -/
def ctxPhaseComplete : ProjectContext :=
  { project_id := "p1", initial_request := Option.some "req"
    current_phase := "Phase1_Requirements", status := "PhaseComplete"
    error_log := [], llm_call_history := [], latest_user_response := Option.none
    artifacts := PyVal.none }

/-- Witness for C3: with `current_phase` at index 0 and status `PhaseComplete`,
the resume decision is index 1. -/
theorem resume_index_determinism_witness :
    startDecision ["Phase1_Requirements", "Phase2_Architecture"] ctxPhaseComplete
      = .startAt 1 :=
  (resume_index_determinism ["Phase1_Requirements", "Phase2_Architecture"]
    ctxPhaseComplete 0 rfl).1 rfl

/-- C10: a loaded status `Running` (crash or interruption mid-phase) with a
known `current_phase` resumes at the same index, exactly like
`NeedsUserInput`: neither the `PhaseComplete` nor the `Error` branch fires, so
the located index is kept (main.py lines 155-175, comment on line 170). -/
theorem resume_running_reenters_same_phase (keys : List String)
    (c : ProjectContext) (i : Nat)
    (hfind : keys.findIdx? (fun k => k == c.current_phase) = Option.some i)
    (hst : c.status = "Running") :
    startDecision keys c = .startAt i := by
  unfold startDecision
  rw [hfind, hst]
  simp

/-- Context loaded mid-phase after a crash. -/
def ctxRunning : ProjectContext :=
  { project_id := "p2", initial_request := Option.some "req"
    current_phase := "Phase2_Architecture", status := "Running"
    error_log := [], llm_call_history := [], latest_user_response := Option.none
    artifacts := PyVal.none }

/-- Witness for C10: status `Running` at index 1 resumes at index 1. -/
theorem resume_running_reenters_same_phase_witness :
    startDecision ["Phase1_Requirements", "Phase2_Architecture"] ctxRunning
      = .startAt 1 :=
  resume_running_reenters_same_phase
    ["Phase1_Requirements", "Phase2_Architecture"] ctxRunning 1 rfl rfl

/-! ## Claim about refusing to resume an errored run -/

/-- A phase whose `run` mutates nothing and returns normally. -/
def stubPhase : PhaseSpec :=
  { key := "Phase1_Requirements", run := fun _ => ([], Option.none) }

/-- An errored context whose `current_phase` is not in the phase sequence. -/
def corruptErrorCtx : ProjectContext :=
  { project_id := "p3", initial_request := Option.some "req"
    current_phase := "Bogus", status := "Error"
    error_log := [], llm_call_history := [], latest_user_response := Option.none
    artifacts := PyVal.none }

/-- Counterexample to C7 as stated: a loaded state with status `Error` whose
`current_phase` is unknown is NOT refused — `phase_keys.index` raises
`ValueError` before the status is examined, the index resets to 0, and the
engine invokes phase 0 (main.py line 162 runs before line 165; lines 171-175).
Here the run resumes and invokes the phase at index 0. -/
theorem error_resume_unknown_phase_still_runs :
    corruptErrorCtx.status = "Error" ∧
    (runWorkflowResume [stubPhase] "t0" corruptErrorCtx).invoked = [0] :=
  ⟨rfl, rfl⟩

/-- C7 (amended): for a resumed run whose loaded status is `Error` AND whose
`current_phase` names a phase of the sequence, the engine refuses to resume:
no phase runs, nothing is saved, and the loaded context is returned unchanged
(main.py lines 165-169). -/
theorem error_resume_refused (phases : List PhaseSpec) (ts : String)
    (c : ProjectContext) (hst : c.status = "Error")
    (hmem : c.current_phase ∈ phases.map PhaseSpec.key) :
    runWorkflowResume phases ts c = { ctx := c, saves := [], invoked := [] } := by
  have h1 := findIdx_isSome_of_mem c.current_phase (phases.map PhaseSpec.key) hmem
  rcases Option.isSome_iff_exists.mp h1 with ⟨i, hi⟩
  unfold runWorkflowResume startDecision
  rw [hi, hst]
  simp

/-- An errored context naming a known phase. -/
def knownErrorCtx : ProjectContext :=
  { project_id := "p4", initial_request := Option.some "req"
    current_phase := "Phase1_Requirements", status := "Error"
    error_log := [], llm_call_history := [], latest_user_response := Option.none
    artifacts := PyVal.none }

/-- Witness for C7 (amended): an errored run with a known phase is returned
unchanged, with no phase invoked and no save. -/
theorem error_resume_refused_witness :
    runWorkflowResume [stubPhase] "t0" knownErrorCtx
      = { ctx := knownErrorCtx, saves := [], invoked := [] } :=
  error_resume_refused [stubPhase] "t0" knownErrorCtx rfl (by decide)

/-! ## Claims about the retry executor -/

namespace LLMTool

/-- A retryable outcome on a non-final attempt stores the exception and
continues the loop with the output untouched. -/
theorem attemptStep_retryable_cont (cn : String) (r : AttemptResult)
    (out : LLMOutput) (le : Option LastErr) (h : retryable r = true) :
    ∃ e, attemptStep cn r false out le = .cont out (Option.some e) := by
  cases r with
  | httpError msg resp =>
      simp only [retryable] at h
      refine ⟨{ typeName := "HTTPError", msg := msg }, ?_⟩
      cases h429 : (statusOf resp == 429) with
      | true => simp [attemptStep, h429]
      | false =>
          rw [h429] at h
          simp only [Bool.false_or] at h
          simp [attemptStep, h429, h]
  | timeout => exact ⟨_, rfl⟩
  | connError ty msg => exact ⟨_, rfl⟩
  | success t => simp [retryable] at h
  | logicalError t e => simp [retryable] at h
  | notImplemented => simp [retryable] at h
  | otherError ty msg => simp [retryable] at h

/-- A retryable outcome on the final attempt breaks out of the loop before
waiting, with the output untouched and the exception stored. -/
theorem attemptStep_retryable_brk (cn : String) (r : AttemptResult)
    (out : LLMOutput) (le : Option LastErr) (h : retryable r = true) :
    ∃ e, attemptStep cn r true out le = .brk out (Option.some e) := by
  cases r with
  | httpError msg resp =>
      simp only [retryable] at h
      refine ⟨{ typeName := "HTTPError", msg := msg }, ?_⟩
      cases h429 : (statusOf resp == 429) with
      | true => simp [attemptStep, h429]
      | false =>
          rw [h429] at h
          simp only [Bool.false_or] at h
          simp [attemptStep, h429, h]
  | timeout => exact ⟨_, rfl⟩
  | connError ty msg => exact ⟨_, rfl⟩
  | success t => simp [retryable] at h
  | logicalError t e => simp [retryable] at h
  | notImplemented => simp [retryable] at h
  | otherError ty msg => simp [retryable] at h

/-- With every attempt retryable, the loop runs through all its fuel, keeps the
initial output, stores a final exception, and ends with the loop variable at
`MAX_RETRIES`. -/
theorem execLoop_retryable (cn : String) (call : Nat → AttemptResult)
    (h : ∀ a, retryable (call a) = true) :
    ∀ fuel a out le made, a + fuel = MAX_RETRIES + 1 → 1 ≤ fuel →
      ∃ e, execLoop cn call fuel a out le made =
        { out := out, lastError := Option.some e
          lastAttempt := MAX_RETRIES, attempts := made + fuel } := by
  intro fuel
  induction fuel with
  | zero => intro a out le made h1 h2; exact absurd h2 (by omega)
  | succ f ih =>
      intro a out le made hsum hf
      by_cases hfz : f = 0
      · subst hfz
        have ha : a = MAX_RETRIES := by omega
        subst ha
        obtain ⟨e, he⟩ := attemptStep_retryable_brk cn (call MAX_RETRIES) out le (h _)
        refine ⟨e, ?_⟩
        simp only [execLoop, beq_self_eq_true, he]
      · have hne : (a == MAX_RETRIES) = false := by
          refine beq_eq_false_iff_ne.mpr ?_
          omega
        obtain ⟨e, he⟩ := attemptStep_retryable_cont cn (call a) out le (h a)
        obtain ⟨e2, he2⟩ := ih (a + 1) out (Option.some e) (made + 1)
          (by omega) (by omega)
        refine ⟨e2, ?_⟩
        simp only [execLoop, hne, he, he2]
        congr 1
        omega

/-- C2: with a collaborator that reports a retryable failure (429, 5xx,
timeout, or connection error) on every attempt, `execute` performs exactly
`MAX_RETRIES + 1 = 4` attempts — never a fifth — and returns a response with
`error` set.  `execute` being a total function, it terminates and raises
nothing. -/
theorem execute_bounded_retries (cn model k : String)
    (call : Nat → AttemptResult) (hk : k ≠ "")
    (h : ∀ a, retryable (call a) = true) :
    (execute cn model k call).attempts = 4 ∧
    (execute cn model k call).error.isSome = true := by
  obtain ⟨e, he⟩ := execLoop_retryable cn call h (MAX_RETRIES + 1) 0
    { text := "", error := Option.none } Option.none 0 (by omega) (by omega)
  unfold execute
  rw [if_neg hk]
  simp only [he]
  simp [MAX_RETRIES]

/-- Witness for C2 at a collaborator that always times out. -/
theorem execute_bounded_retries_witness :
    (execute "OpenAITool" "gpt-4" "sk-test" (fun _ => AttemptResult.timeout)).attempts = 4 ∧
    (execute "OpenAITool" "gpt-4" "sk-test" (fun _ => AttemptResult.timeout)).error.isSome = true :=
  execute_bounded_retries "OpenAITool" "gpt-4" "sk-test"
    (fun _ => AttemptResult.timeout) (by decide) (fun _ => rfl)

/-- C4: a client-error-class HTTP failure (4xx other than 429) on attempt 1 is
not retried: `execute` performs exactly 1 attempt and returns an error naming
the HTTP status and the response body truncated to at most 200 characters
(llm_tools.py lines 91-99). -/
theorem execute_client_error_no_retry (cn model k msg body : String)
    (ra : Option String) (st : Nat) (call : Nat → AttemptResult) (hk : k ≠ "")
    (h0 : call 0 = .httpError msg
      (Option.some { status := st, text := body, retryAfter := ra }))
    (h4 : 400 ≤ st) (h5 : st < 500) (h429 : st ≠ 429) :
    execute cn model k call =
      { text := ""
        error := Option.some ("API Request Failed (HTTP " ++ toString st
          ++ "): " ++ msg ++ " | Resp: " ++ pyTake body 200)
        attempts := 1 } ∧
    (pyTake body 200).length ≤ 200 := by
  have hne : (st == 429) = false := beq_eq_false_iff_ne.mpr h429
  have hble : Nat.ble 500 st = false := by
    rw [← Bool.not_eq_true, Nat.ble_eq]
    omega
  have h5xx : is5xx st = false := by
    unfold is5xx
    rw [hble]
    rfl
  have hstep : attemptStep cn (call 0) ((0 : Nat) == MAX_RETRIES)
      { text := "", error := Option.none } Option.none =
      .brk { text := "", error := Option.some ("API Request Failed (HTTP "
          ++ toString st ++ "): " ++ msg ++ " | Resp: " ++ pyTake body 200) }
        (Option.some { typeName := "HTTPError", msg := msg }) := by
    rw [h0]
    unfold attemptStep
    simp [statusOf, respSnippet, hne, h5xx]
  constructor
  · unfold execute
    rw [if_neg hk]
    simp only [execLoop, hstep]
    simp [MAX_RETRIES]
  · have h1 : (pyTake body 200).length = (body.data.take 200).length := rfl
    rw [h1, List.length_take]
    exact Nat.min_le_left _ _

/-- Witness for C4 at a 403 response. -/
theorem execute_client_error_no_retry_witness :
    execute "OpenAITool" "gpt-4" "sk-test"
      (fun _ => AttemptResult.httpError "403 Client Error"
        (Option.some { status := 403, text := "forbidden", retryAfter := Option.none })) =
      { text := ""
        error := Option.some ("API Request Failed (HTTP " ++ toString (403 : Nat)
          ++ "): " ++ "403 Client Error" ++ " | Resp: " ++ pyTake "forbidden" 200)
        attempts := 1 } ∧
    (pyTake "forbidden" 200).length ≤ 200 :=
  execute_client_error_no_retry "OpenAITool" "gpt-4" "sk-test"
    "403 Client Error" "forbidden" Option.none 403
    (fun _ => AttemptResult.httpError "403 Client Error"
      (Option.some { status := 403, text := "forbidden", retryAfter := Option.none }))
    (by decide) rfl (by decide) (by decide) (by decide)

/-- Collaborator that fails retryably on attempts 1-3 and succeeds on the
final allowed attempt. -/
def lastAttemptSuccessCall : Nat → AttemptResult := fun a =>
  if a < 3 then
    .httpError "500 Server Error"
      (Option.some { status := 500, text := "boom", retryAfter := Option.none })
  else .success "hello"

/-- C1 (failing evaluation): a first success on the final allowed attempt
breaks the loop with `error` cleared and `last_error` reset to `None`, yet the
after-loop check `attempt == MAX_RETRIES and output.error is None`
(llm_tools.py line 139) still fires and overwrites the successful response
with the synthesized "Unknown final error" failure message — despite the
attempt text being carried.  The code contradicts its own comments (line 62
"Ensure error is cleared on success", line 144 "Should not happen") and the
Response ok/failed invariant. -/
theorem execute_success_on_last_attempt_misreported :
    execute "OpenAITool" "gpt-4" "sk-test" lastAttemptSuccessCall =
      { text := "hello"
        error := Option.some
          "LLM call failed after exhausting retries for gpt-4 (Unknown final error)."
        attempts := 4 } := rfl

end LLMTool

/-! ## Claims about the engine loop -/

/-- Both logs of `c₂` extend those of `c₁` by an appended suffix: nothing is
rewritten or removed and the lengths can only grow. -/
def LogsExtend (c₁ c₂ : ProjectContext) : Prop :=
  (∃ t, c₂.error_log = c₁.error_log ++ t) ∧
  (∃ t, c₂.llm_call_history = c₁.llm_call_history ++ t)

/-- Reflexivity of log extension. -/
theorem logsExtend_refl (c : ProjectContext) : LogsExtend c c :=
  ⟨⟨[], by simp⟩, ⟨[], by simp⟩⟩

/-- Transitivity of log extension. -/
theorem logsExtend_trans {a b c : ProjectContext}
    (h1 : LogsExtend a b) (h2 : LogsExtend b c) : LogsExtend a c := by
  obtain ⟨⟨t1, e1⟩, ⟨t2, e2⟩⟩ := h1
  obtain ⟨⟨t3, e3⟩, ⟨t4, e4⟩⟩ := h2
  exact ⟨⟨t1 ++ t3, by rw [e3, e1, List.append_assoc]⟩,
         ⟨t2 ++ t4, by rw [e4, e2, List.append_assoc]⟩⟩

/-- Every single phase mutation extends the logs: the two appending operations
append, the others leave both logs untouched. -/
theorem applyOp_logsExtend (op : CtxOp) (c : ProjectContext) :
    LogsExtend c (applyOp op c) := by
  cases op with
  | addLlmCall o =>
      refine ⟨⟨[], ?_⟩, ⟨[o], rfl⟩⟩
      simp [applyOp, ProjectContext.add_llm_call]
  | addLogEntry ts phase level message details =>
      refine ⟨⟨[LogEntry.mk ts phase (pyUpper level) message details], rfl⟩,
        ⟨[], ?_⟩⟩
      simp [applyOp, ProjectContext.add_log_entry]
  | updateStatus st ph =>
      refine ⟨⟨[], ?_⟩, ⟨[], ?_⟩⟩ <;>
        simp [applyOp, ProjectContext.update_status]
  | setArtifacts v =>
      refine ⟨⟨[], ?_⟩, ⟨[], ?_⟩⟩ <;> simp [applyOp]
  | setLatestUserResponse r =>
      refine ⟨⟨[], ?_⟩, ⟨[], ?_⟩⟩ <;> simp [applyOp]

/-- A whole phase run extends the logs. -/
theorem runOps_logsExtend (ops : List CtxOp) :
    ∀ c, LogsExtend c (runOps ops c) := by
  induction ops with
  | nil => intro c; exact logsExtend_refl c
  | cons op ops ih =>
      intro c
      exact logsExtend_trans (applyOp_logsExtend op c) (ih (applyOp op c))

/-- The engine's own log append extends the logs. -/
theorem add_log_entry_logsExtend (c : ProjectContext) (ts phase level message : String)
    (details : Option String) :
    LogsExtend c (c.add_log_entry ts phase level message details) :=
  ⟨⟨[LogEntry.mk ts phase (pyUpper level) message details], rfl⟩,
   ⟨[], by simp [ProjectContext.add_log_entry]⟩⟩

/-- Status updates leave both logs untouched. -/
theorem update_status_logsExtend (c : ProjectContext) (st : String)
    (ph : Option String) : LogsExtend c (c.update_status st ph) :=
  ⟨⟨[], by simp [ProjectContext.update_status]⟩,
   ⟨[], by simp [ProjectContext.update_status]⟩⟩

/-- C8: across the whole engine loop — hence across every phase invocation it
makes, whether the phase ends in `PhaseComplete`, `NeedsUserInput`, `Error`,
an unexpected status, or raises — the error log and the call history only
grow: the context the loop returns carries both logs of the starting context
extended by appended suffixes, so lengths never shrink and existing entries
are never rewritten.  Phases mutate the context only through `CtxOp` (the
operations found in the phase sources), and each operation appends or leaves
the logs alone. -/
theorem engine_logs_append_only (phases : List PhaseSpec) (ts : String)
    (i : Nat) (c : ProjectContext) :
    LogsExtend c (engineLoop phases ts i c).ctx := by
  unfold engineLoop
  generalize phases.length - i = fuel
  induction fuel generalizing i c with
  | zero => exact logsExtend_refl c
  | succ f ih =>
      cases hph : phases[i]? with
      | none => simpa [engineLoopFuel, hph] using logsExtend_refl c
      | some ph =>
          rcases hrun : ph.run c with ⟨ops, exc⟩
          have hc1 : LogsExtend c (runOps ops c) := runOps_logsExtend ops c
          cases exc with
          | some e =>
              simp only [engineLoopFuel, hph, hrun]
              exact logsExtend_trans hc1
                (logsExtend_trans
                  (add_log_entry_logsExtend (runOps ops c) ts ph.key "CRITICAL"
                    "Orchestrator exception" (Option.some e))
                  (update_status_logsExtend _ "Error" (Option.some ph.key)))
          | none =>
              simp only [engineLoopFuel, hph, hrun]
              by_cases hE : (runOps ops c).status = "Error"
              · simp only [if_pos hE]
                exact hc1
              · rw [if_neg hE]
                by_cases hN : (runOps ops c).status = "NeedsUserInput"
                · simp only [if_pos hN]
                  exact hc1
                · rw [if_neg hN]
                  by_cases hP : (runOps ops c).status = "PhaseComplete"
                  · simp only [if_pos hP]
                    by_cases hL : i + 1 = phases.length
                    · simp only [if_pos hL]
                      exact logsExtend_trans hc1
                        (update_status_logsExtend _ "Complete" Option.none)
                    · simp only [if_neg hL]
                      exact logsExtend_trans hc1 (ih (i + 1) (runOps ops c))
                  · simp only [if_neg hP]
                    exact logsExtend_trans hc1
                      (update_status_logsExtend _ "Error" (Option.some ph.key))

/-- C5: a phase whose `run` returns normally with a status outside
`{PhaseComplete, NeedsUserInput, Error}` is invoked exactly once; the engine
saves the returned state, converts the status to `Error` (keeping the phase
name), saves the error state, and halts the loop (main.py lines 221-230; the
diagnostic is emitted to the logger, which the model elides). -/
theorem engine_unexpected_status_halts (phases : List PhaseSpec) (ts : String)
    (i : Nat) (c : ProjectContext) (ph : PhaseSpec) (ops : List CtxOp)
    (hph : phases[i]? = Option.some ph)
    (hrun : ph.run c = (ops, Option.none))
    (h1 : (runOps ops c).status ≠ "PhaseComplete")
    (h2 : (runOps ops c).status ≠ "NeedsUserInput")
    (h3 : (runOps ops c).status ≠ "Error") :
    engineLoop phases ts i c =
      { ctx := (runOps ops c).update_status "Error" (Option.some ph.key)
        saves := [runOps ops c,
          (runOps ops c).update_status "Error" (Option.some ph.key)]
        invoked := [i] } := by
  have hlt : i < phases.length := (List.getElem?_eq_some.mp hph).1
  have hfuel : phases.length - i = (phases.length - i - 1) + 1 := by omega
  unfold engineLoop
  rw [hfuel]
  simp only [engineLoopFuel, hph, hrun]
  rw [if_neg h3, if_neg h2, if_neg h1]

/-- C6: an exception raised out of a phase's `run` is caught at the loop
level: the engine appends a `CRITICAL` entry naming the failing phase to the
error log, sets status `Error`, saves that state, and halts; the loop is a
total function, so it returns the context rather than propagating (main.py
lines 232-248). -/
theorem engine_exception_caught (phases : List PhaseSpec) (ts : String)
    (i : Nat) (c : ProjectContext) (ph : PhaseSpec) (ops : List CtxOp)
    (e : String) (hph : phases[i]? = Option.some ph)
    (hrun : ph.run c = (ops, Option.some e)) :
    engineLoop phases ts i c =
      { ctx := ((runOps ops c).add_log_entry ts ph.key "CRITICAL"
          "Orchestrator exception" (Option.some e)).update_status "Error"
          (Option.some ph.key)
        saves := [((runOps ops c).add_log_entry ts ph.key "CRITICAL"
          "Orchestrator exception" (Option.some e)).update_status "Error"
          (Option.some ph.key)]
        invoked := [i] } := by
  have hlt : i < phases.length := (List.getElem?_eq_some.mp hph).1
  have hfuel : phases.length - i = (phases.length - i - 1) + 1 := by omega
  unfold engineLoop
  rw [hfuel]
  simp only [engineLoopFuel, hph, hrun]

/-- A stub phase that leaves the status at `Running` forever. -/
def runningStubPhase : PhaseSpec :=
  { key := "Phase1_Requirements"
    run := fun _ =>
      ([CtxOp.updateStatus "Running" (Option.some "Phase1_Requirements")],
        Option.none) }

/-- A freshly initialized context. -/
def freshCtx : ProjectContext :=
  { project_id := "p5", initial_request := Option.some "req"
    current_phase := "Initialization", status := "Pending"
    error_log := [], llm_call_history := [], latest_user_response := Option.none
    artifacts := PyVal.none }

/-- Witness for C5: the `Running` stub phase is invoked once and the engine
halts with status converted to `Error`. -/
theorem engine_unexpected_status_halts_witness :
    engineLoop [runningStubPhase] "t0" 0 freshCtx =
      { ctx := (runOps [CtxOp.updateStatus "Running"
            (Option.some "Phase1_Requirements")] freshCtx).update_status
            "Error" (Option.some runningStubPhase.key)
        saves := [runOps [CtxOp.updateStatus "Running"
            (Option.some "Phase1_Requirements")] freshCtx,
          (runOps [CtxOp.updateStatus "Running"
            (Option.some "Phase1_Requirements")] freshCtx).update_status
            "Error" (Option.some runningStubPhase.key)]
        invoked := [0] } :=
  engine_unexpected_status_halts [runningStubPhase] "t0" 0 freshCtx
    runningStubPhase
    [CtxOp.updateStatus "Running" (Option.some "Phase1_Requirements")]
    rfl rfl (by decide) (by decide) (by decide)

/-- A phase whose `run` raises after mutating nothing. -/
def raisingPhase : PhaseSpec :=
  { key := "Phase2_Architecture", run := fun _ => ([], Option.some "boom") }

/-- Witness for C6: the raising phase is invoked once, the exception is logged
under its name, and the engine halts in `Error`. -/
theorem engine_exception_caught_witness :
    engineLoop [raisingPhase] "t0" 0 freshCtx =
      { ctx := ((runOps [] freshCtx).add_log_entry "t0" raisingPhase.key
          "CRITICAL" "Orchestrator exception"
          (Option.some "boom")).update_status "Error"
          (Option.some raisingPhase.key)
        saves := [((runOps [] freshCtx).add_log_entry "t0" raisingPhase.key
          "CRITICAL" "Orchestrator exception"
          (Option.some "boom")).update_status "Error"
          (Option.some raisingPhase.key)]
        invoked := [0] } :=
  engine_exception_caught [raisingPhase] "t0" 0 freshCtx raisingPhase []
    "boom" rfl rfl

/-! ## Claims about the save/load round trip -/

/-- Encoding preserves the key set of a dict. -/
theorem encodeDict_hasKey : ∀ (es : PyDict) (k : String),
    JDict.hasKey (encodeDict es) k = PyDict.hasKey es k
  | .nil, _ => rfl
  | .cons key v r, k => by
      simp [encodeDict, JDict.hasKey, PyDict.hasKey, encodeDict_hasKey r k]

mutual
theorem roundtripVal : ∀ v : PyVal, wfVal v = true → dateFreeVal v = true →
    decodeVal (encodeVal v) = v
  | .str s, _, _ => rfl
  | .int n, _, _ => rfl
  | .bool b, _, _ => rfl
  | .none, _, _ => rfl
  | .datetime dt, _, _ => rfl
  | .date d, _, h2 => by simp [dateFreeVal] at h2
  | .uuid u, h1, _ => by
      have hc : isCanonicalUuid u = true := h1
      simp [encodeVal, decodeVal, JDict.hasKey, JDict.lookupVal, hc]
  | .list xs, h1, h2 => by
      have ih := roundtripList xs h1 h2
      simp [encodeVal, decodeVal, ih]
  | .dict es, h1, h2 => by
      simp only [wfVal, Bool.and_eq_true, Bool.not_eq_true'] at h1
      have ih := roundtripDict es h1.2 h2
      have hk1 : JDict.hasKey (encodeDict es) "__datetime__" = false := by
        rw [encodeDict_hasKey]
        exact h1.1.1
      have hk2 : JDict.hasKey (encodeDict es) "__uuid__" = false := by
        rw [encodeDict_hasKey]
        exact h1.1.2
      simp [encodeVal, decodeVal, hk1, hk2, ih]

theorem roundtripList : ∀ xs : PyList, wfList xs = true → dateFreeList xs = true →
    decodeList (encodeList xs) = xs
  | .nil, _, _ => rfl
  | .cons x xs, h1, h2 => by
      simp only [wfList, Bool.and_eq_true] at h1
      simp only [dateFreeList, Bool.and_eq_true] at h2
      simp [encodeList, decodeList, roundtripVal x h1.1 h2.1,
        roundtripList xs h1.2 h2.2]

theorem roundtripDict : ∀ es : PyDict, wfDict es = true → dateFreeDict es = true →
    decodeDict (encodeDict es) = es
  | .nil, _, _ => rfl
  | .cons k v r, h1, h2 => by
      simp only [wfDict, Bool.and_eq_true] at h1
      simp only [dateFreeDict, Bool.and_eq_true] at h2
      simp [encodeDict, decodeDict, roundtripVal v h1.1 h2.1,
        roundtripDict r h1.2 h2.2]
end

/-- C9 (amended): for every context dictionary built from strings, ints,
bools, `None`, `datetime.datetime`, `uuid.UUID`, lists and string-keyed
dicts — with no dict using the encoder's reserved tag keys `"__datetime__"` /
`"__uuid__"` and no bare `datetime.date` value — saving and loading
reconstructs an equal value; in particular `datetime.datetime` and `uuid.UUID`
values embedded anywhere in the nested free-form maps survive unchanged in
both value and type.  A bare `datetime.date` does not survive (see the
counterexample): it is decoded as a `datetime.datetime`. -/
theorem save_load_roundtrip (v : PyVal) (h1 : wfVal v = true)
    (h2 : dateFreeVal v = true) :
    load_project_context (save_project_context v) = v :=
  roundtripVal v h1 h2

/-- A context dict with a UUID and a datetime nested in a free-form map. -/
def sampleCtxDict : PyVal :=
  .dict (.cons "project_id" (.str "proj_ab12cd34_20240502")
    (.cons "refined_requirements"
      (.dict (.cons "id" (.uuid "123e4567-e89b-12d3-a456-426614174000")
        (.cons "created"
          (.datetime (DateTimeVal.mk (DateVal.mk 2024 5 2) 10 30 0 0 Option.none))
          .nil)))
      .nil))

/-- Witness for C9 (amended): a nested map holding a UUID and a datetime
round-trips unchanged. -/
theorem save_load_roundtrip_witness :
    load_project_context (save_project_context sampleCtxDict) = sampleCtxDict :=
  save_load_roundtrip sampleCtxDict (by decide) (by decide)

/-- A context dict holding a bare `datetime.date` in a free-form map. -/
def dateCtxDict : PyVal :=
  .dict (.cons "when" (.date (DateVal.mk 2024 1 1)) .nil)

/-- Counterexample to C9 as stated: a `datetime.date` value is encoded through
`o.isoformat()` (utils.py line 21 treats `date` and `datetime` alike) but
decoded with `datetime.datetime.fromisoformat` (line 41), so it comes back as
a `datetime.datetime` at midnight — equal in neither value nor type to the
original `date`. -/
theorem save_load_date_type_lost :
    load_project_context (save_project_context dateCtxDict) =
      .dict (.cons "when"
        (.datetime (DateTimeVal.mk (DateVal.mk 2024 1 1) 0 0 0 0 Option.none))
        .nil) ∧
    load_project_context (save_project_context dateCtxDict) ≠ dateCtxDict := by
  constructor
  · rfl
  · intro h
    have h2 : PyVal.dict (PyDict.cons "when" (PyVal.datetime
        (DateTimeVal.mk (DateVal.mk 2024 1 1) 0 0 0 0 Option.none)) PyDict.nil) =
        PyVal.dict (PyDict.cons "when" (PyVal.date (DateVal.mk 2024 1 1))
          PyDict.nil) := h
    injection h2 with h3
    injection h3 with hk hv hr
    injection hv

end WizardPro
